import Mathlib

/-!
Shallow embedding of the hindunity-backend HTTP handlers (src/api/index.py and
src/endpoints.py) and proofs about the spec's claims.

Modelling conventions:
* Python `datetime` values are modelled as `Nat` (seconds); `timedelta(hours=1)`
  is `3600`.
* Python string truthiness (`if self.token`, `if data.get("content")`) is
  `pyTruthyStr`: `None` and the empty string are falsy.
* A JSON body is an `Option PostBody`; a JSON value that is `null` and an
  absent key are collapsed into `none`.  The two are indistinguishable
  everywhere the claims look: both are falsy in validation, and
  `data.get(k, default)` differs between them only for `post_type` / `source`
  defaults, which no claim inspects beyond the inserted record's `user_id`.
* External effects (identity-provider login, database insert, mapping lookup,
  status update, media cleanup) are recorded in an ordered `Effect` trace;
  their outcomes are supplied as oracle arguments (`Option Session`,
  `Except String _`).
* Exceptions are modelled with `Except String`; a Python `try/except` that
  catches everything becomes a total `match` on the `Except` value.
-/

/-- Truthiness of an optional Python string: `None` and `""` are falsy. -/
def pyTruthyStr : Option String → Bool
  | none => false
  | some s => s != ""

/-- Session object returned by a successful `sign_in_with_password`: the
fields the code reads (`auth.session.access_token` and `auth.user.id`).
A failed login (`auth` falsy or `auth.session` falsy) is `none`. -/
structure Session where
  access_token : String
  user_id : String
deriving DecidableEq

/-- Mutable state of the global `AuthManager` (fields `token`, `user_id`,
`expires_at` of src/api/index.py lines 90-93). -/
structure AuthState where
  token : Option String := none
  user_id : Option String := none
  expires_at : Option Nat := none
deriving DecidableEq

namespace AuthManager

/-- Condition of src/api/index.py line 97:
`self.token and self.expires_at and datetime.now() < self.expires_at`.
A `datetime` object is always truthy, so the middle conjunct is `isSome`. -/
def cacheValid (st : AuthState) (now : Nat) : Bool :=
  pyTruthyStr st.token &&
    (match st.expires_at with
     | some e => decide (now < e)
     | none => false)

/-- Embedding of `AuthManager.get_token` (src/api/index.py lines 95-115).
Returns the result (token or raised error message), the state after the call,
and the number of `sign_in_with_password` calls issued.  The `login` oracle is
the provider's answer.  src/endpoints.py lines 42-63 is the same function
except that its line 44 omits the `self.expires_at` None-guard; the two agree
on every state in which `token` and `expires_at` are set together, which is
every state this transition function produces. -/
def get_token (st : AuthState) (now : Nat) (login : Option Session) :
    Except String String × AuthState × Nat :=
  if cacheValid st now then
    (Except.ok (st.token.getD ""), st, 0)
  else
    match login with
    | none => (Except.error "Bot login failed", st, 1)
    | some s =>
      (Except.ok s.access_token,
       { token := some s.access_token,
         user_id := some s.user_id,
         expires_at := some (now + 3600) }, 1)

end AuthManager

/-! Media Cleanup (`delete_media_from_storage`, src/api/index.py lines
126-153, identical in src/endpoints.py lines 75-102).  Python's substring
test `sub in s` and `s.split(sub)[1]` are embedded as structural functions
over `List Char` so that they compute by kernel reduction. -/

/-- Test whether `sub` occurs at the head of `l`. -/
def beginsWith : List Char → List Char → Bool
  | [], _ => true
  | _ :: _, [] => false
  | a :: as, b :: bs => a == b && beginsWith as bs

/-- Python substring test `sub in s` (for the non-empty separators used in
this code). -/
def containsSub (sub : List Char) : List Char → Bool
  | [] => beginsWith sub []
  | c :: rest => beginsWith sub (c :: rest) || containsSub sub rest

/-- Suffix of `l` after the end of the first occurrence of `sub`
(`[]` when `sub` does not occur). -/
def afterFirst (sub : List Char) : List Char → List Char
  | [] => []
  | c :: rest =>
    if beginsWith sub (c :: rest) then (c :: rest).drop sub.length
    else afterFirst sub rest

/-- Longest lead of `l` in which `sub` does not begin anywhere. -/
def upToNext (sub : List Char) : List Char → List Char
  | [] => []
  | c :: rest =>
    if beginsWith sub (c :: rest) then []
    else c :: upToNext sub rest

/-- Python `sub in s` at `String` level. -/
def strContains (s sub : String) : Bool :=
  containsSub sub.data s.data

/-- Python `s.split(sub)[1]`: the segment between the end of the first
occurrence of `sub` and the start of the next (non-overlapping) one. -/
def splitSecond (s sub : String) : String :=
  ⟨upToNext sub.data (afterFirst sub.data s.data)⟩

/-- Public-URL marker `f'{s3_bucket}.s3.amazonaws.com/'` of line 138. -/
def bucketPfx (bucket : String) : String :=
  bucket ++ ".s3.amazonaws.com/"

/-- Logged outcome of the loop body for a single media URL. -/
inductive MediaAction where
  | deleted (key : String)
  | failedUrl (url : String) (err : String)
  | invalidUrl (url : String)
deriving DecidableEq

/-- Body of the per-URL `try/except` (src/api/index.py lines 137-150): derive
the key when the bucket marker occurs, attempt the delete via the `deleteObj`
oracle, and catch any deletion error. -/
def processUrl (bucket : String) (deleteObj : String → Except String Unit)
    (url : String) : MediaAction :=
  if strContains url (bucketPfx bucket) then
    let key := splitSecond url (bucketPfx bucket)
    match deleteObj key with
    | Except.ok _ => MediaAction.deleted key
    | Except.error e => MediaAction.failedUrl url e
  else
    MediaAction.invalidUrl url

/-- The `for media_url in media_urls` loop of line 136. -/
def cleanupLoop (bucket : String) (deleteObj : String → Except String Unit) :
    List String → List MediaAction
  | [] => []
  | url :: rest => processUrl bucket deleteObj url :: cleanupLoop bucket deleteObj rest

/-- Embedding of `delete_media_from_storage`: the early return on a falsy
list (line 128), then the loop.  Every exception source (`deleteObj`) is
consumed by the per-URL catch, so the function is total: it returns the log
of actions rather than an `Except`. -/
def delete_media_from_storage (bucket : String)
    (deleteObj : String → Except String Unit) (media_urls : List String) :
    List MediaAction :=
  if media_urls.isEmpty then []
  else cleanupLoop bucket deleteObj media_urls

/-! Post Ingestion handlers.  The request body, the login oracle and the
database outcomes are arguments; every external call is recorded in an
ordered trace. -/

/-- JSON request body fields read by the ingestion handlers.  `none` stands
for an absent key or a JSON `null` value. -/
structure PostBody where
  content : Option String := none
  post_type : Option String := none
  media_url : Option (List String) := none
  twitter_unique_id : Option String := none
  twitter_username : Option String := none
  source : Option String := none
  location : Option String := none
  link_preview : Option String := none
deriving DecidableEq

/-- Record assembled as `post_data` before the insert.  `post_type` and
`source` hold the `data.get(key, default)` results. -/
structure PostData where
  user_id : String
  content : Option String
  post_type : String
  media_url : Option (List String)
  twitter_unique_id : Option String
  twitter_username : Option String
  source : String
  location : Option String
  link_preview : Option String
deriving DecidableEq

/-- External calls a handler can issue, in order. -/
inductive Effect where
  | login
  | mapLookup (username : String)
  | insert (table : String) (row : PostData)
  | updateStatus (table : String) (twitter_unique_id : String) (status : String)
  | cleanup (urls : List String)
deriving DecidableEq

/-- HTTP response together with the ordered trace of external calls. -/
structure HandlerResult where
  status : Nat
  success : Bool
  error : Option String
  trace : List Effect
deriving DecidableEq

/-- Fallback identity of src/api/index.py line 85. -/
def DEFAULT_BOT_USER_ID : String := "bdb9c10d-1127-476e-8b71-18acecc74824"

/-- Trace contribution of one `get_token` call that issued `n` logins. -/
def loginTr (n : Nat) : List Effect :=
  if n == 0 then [] else [Effect.login]

/-- The `except` block of the ingestion handlers (src/api/index.py lines
328-342): re-read `media_url` from the original request, clean up when the
list is truthy, then answer 500 with the error's description. -/
def ingestFailPath (body : Option PostBody) (e : String) (tr : List Effect) :
    HandlerResult :=
  let media_urls := (body.bind (fun d => d.media_url)).getD []
  let tr2 := if media_urls.isEmpty then tr else tr ++ [Effect.cleanup media_urls]
  { status := 500, success := false, error := some e, trace := tr2 }

/-- The three validation checks shared by the ingestion handlers
(src/api/index.py lines 282-298): the message of the first failing check,
`none` when the body passes. -/
def validationError : Option PostBody → Option String
  | none => some "No data provided"
  | some d =>
    if !pyTruthyStr d.content then some "content is required"
    else if !pyTruthyStr d.twitter_unique_id then some "twitter_unique_id is required"
    else none

/-- The token-fetch preamble succeeds: the cache is valid or the provider
answers with a session. -/
def authOk (st : AuthState) (now : Nat) (login : Option Session) : Bool :=
  AuthManager.cacheValid st now || login.isSome

namespace ApiIndex

/-- Embedding of `create_post_by_bot` (src/api/index.py lines 268-342).
The handler first runs `auth_manager.get_token()` and
`auth_manager.get_user_id()` (a second `get_token` on the updated state),
then validates, assembles `post_data` and inserts into `posts`; any raised
error is caught by `ingestFailPath`. -/
def create_post_by_bot (st : AuthState) (now : Nat) (login : Option Session)
    (body : Option PostBody) (insertRes : Except String Unit) : HandlerResult :=
  match AuthManager.get_token st now login with
  | (Except.error e, _, n1) => ingestFailPath body e (loginTr n1)
  | (Except.ok _tok, st1, n1) =>
    match AuthManager.get_token st1 now login with
    | (Except.error e, _, n2) => ingestFailPath body e (loginTr n1 ++ loginTr n2)
    | (Except.ok _, st2, n2) =>
      let tr := loginTr n1 ++ loginTr n2
      let user_id := st2.user_id.getD ""
      match body with
      | none =>
        { status := 400, success := false, error := some "No data provided", trace := tr }
      | some d =>
        if !pyTruthyStr d.content then
          { status := 400, success := false, error := some "content is required", trace := tr }
        else if !pyTruthyStr d.twitter_unique_id then
          { status := 400, success := false, error := some "twitter_unique_id is required",
            trace := tr }
        else
          let post_data : PostData :=
            { user_id := user_id, content := d.content,
              post_type := d.post_type.getD "text", media_url := d.media_url,
              twitter_unique_id := d.twitter_unique_id,
              twitter_username := d.twitter_username,
              source := d.source.getD "twitter", location := d.location,
              link_preview := d.link_preview }
          let tr2 := tr ++ [Effect.insert "posts" post_data]
          match insertRes with
          | Except.ok _ =>
            { status := 201, success := true, error := none, trace := tr2 }
          | Except.error e => ingestFailPath body e tr2

/-- Embedding of `create_post_by_bot_for_approval` (src/api/index.py lines
345-437).  No token fetch; validation first; then the `twitter_id_map`
lookup (its row list of `user_id` values is the `mappingRes` oracle, whose
error is swallowed), then the insert into `twitter_posts`. -/
def create_post_by_bot_for_approval (body : Option PostBody)
    (mappingRes : Except String (List String)) (insertRes : Except String Unit) :
    HandlerResult :=
  match body with
  | none =>
    { status := 400, success := false, error := some "No data provided", trace := [] }
  | some d =>
    if !pyTruthyStr d.content then
      { status := 400, success := false, error := some "content is required", trace := [] }
    else if !pyTruthyStr d.twitter_unique_id then
      { status := 400, success := false, error := some "twitter_unique_id is required",
        trace := [] }
    else
      let resolved : String × List Effect :=
        if pyTruthyStr d.twitter_username then
          let uname := d.twitter_username.getD ""
          match mappingRes with
          | Except.ok rows =>
            (match rows with
             | [] => DEFAULT_BOT_USER_ID
             | u :: _ => u,
             [Effect.mapLookup uname])
          | Except.error _ => (DEFAULT_BOT_USER_ID, [Effect.mapLookup uname])
        else (DEFAULT_BOT_USER_ID, [])
      let user_id := resolved.1
      let post_data : PostData :=
        { user_id := user_id, content := d.content,
          post_type := d.post_type.getD "text", media_url := d.media_url,
          twitter_unique_id := d.twitter_unique_id,
          twitter_username := d.twitter_username,
          source := d.source.getD "twitter", location := d.location,
          link_preview := d.link_preview }
      let tr2 := resolved.2 ++ [Effect.insert "twitter_posts" post_data]
      match insertRes with
      | Except.ok _ => { status := 201, success := true, error := none, trace := tr2 }
      | Except.error e => ingestFailPath body e tr2

end ApiIndex

namespace Endpoints

/-- Embedding of `create_post_by_bot` (src/endpoints.py lines 210-328).
Identical control flow to the src/api/index.py version; its `post_data`
omits the `link_preview` key (modelled as `none`). -/
def create_post_by_bot (st : AuthState) (now : Nat) (login : Option Session)
    (body : Option PostBody) (insertRes : Except String Unit) : HandlerResult :=
  match AuthManager.get_token st now login with
  | (Except.error e, _, n1) => ingestFailPath body e (loginTr n1)
  | (Except.ok _tok, st1, n1) =>
    match AuthManager.get_token st1 now login with
    | (Except.error e, _, n2) => ingestFailPath body e (loginTr n1 ++ loginTr n2)
    | (Except.ok _, st2, n2) =>
      let tr := loginTr n1 ++ loginTr n2
      let user_id := st2.user_id.getD ""
      match body with
      | none =>
        { status := 400, success := false, error := some "No data provided", trace := tr }
      | some d =>
        if !pyTruthyStr d.content then
          { status := 400, success := false, error := some "content is required", trace := tr }
        else if !pyTruthyStr d.twitter_unique_id then
          { status := 400, success := false, error := some "twitter_unique_id is required",
            trace := tr }
        else
          let post_data : PostData :=
            { user_id := user_id, content := d.content,
              post_type := d.post_type.getD "text", media_url := d.media_url,
              twitter_unique_id := d.twitter_unique_id,
              twitter_username := d.twitter_username,
              source := d.source.getD "twitter", location := d.location,
              link_preview := none }
          let tr2 := tr ++ [Effect.insert "posts" post_data]
          match insertRes with
          | Except.ok _ =>
            { status := 201, success := true, error := none, trace := tr2 }
          | Except.error e => ingestFailPath body e tr2

/-- Embedding of `create_post_by_bot_for_approval` (src/endpoints.py lines
331-440).  Same auth-first control flow as its `create_post_by_bot`, writing
to `twitter_posts`; it consults no username mapping — `user_id` is always the
cached bot identity. -/
def create_post_by_bot_for_approval (st : AuthState) (now : Nat)
    (login : Option Session) (body : Option PostBody)
    (insertRes : Except String Unit) : HandlerResult :=
  match AuthManager.get_token st now login with
  | (Except.error e, _, n1) => ingestFailPath body e (loginTr n1)
  | (Except.ok _tok, st1, n1) =>
    match AuthManager.get_token st1 now login with
    | (Except.error e, _, n2) => ingestFailPath body e (loginTr n1 ++ loginTr n2)
    | (Except.ok _, st2, n2) =>
      let tr := loginTr n1 ++ loginTr n2
      let user_id := st2.user_id.getD ""
      match body with
      | none =>
        { status := 400, success := false, error := some "No data provided", trace := tr }
      | some d =>
        if !pyTruthyStr d.content then
          { status := 400, success := false, error := some "content is required", trace := tr }
        else if !pyTruthyStr d.twitter_unique_id then
          { status := 400, success := false, error := some "twitter_unique_id is required",
            trace := tr }
        else
          let post_data : PostData :=
            { user_id := user_id, content := d.content,
              post_type := d.post_type.getD "text", media_url := d.media_url,
              twitter_unique_id := d.twitter_unique_id,
              twitter_username := d.twitter_username,
              source := d.source.getD "twitter", location := d.location,
              link_preview := none }
          let tr2 := tr ++ [Effect.insert "twitter_posts" post_data]
          match insertRes with
          | Except.ok _ =>
            { status := 201, success := true, error := none, trace := tr2 }
          | Except.error e => ingestFailPath body e tr2

end Endpoints


/-- The `user_id` values of the rows a trace inserts, in order. -/
def insertedUserIds (tr : List Effect) : List String :=
  tr.filterMap (fun a =>
    match a with
    | Effect.insert _ row => some row.user_id
    | _ => none)

/-! Approval Transfer (`accept_twitter_post`, src/api/index.py lines
524-583). -/

/-- Row of the `twitter_posts` queue table: the nine fields the transfer
copies, plus the `status` column the update writes. -/
structure TwitterPostRow where
  user_id : String
  content : Option String
  post_type : Option String
  media_url : Option (List String)
  twitter_unique_id : Option String
  twitter_username : Option String
  source : Option String
  location : Option String
  link_preview : Option String
  status : String
deriving DecidableEq

/-- Field copy of src/api/index.py lines 553-563 (`post_data = {...}` built
from the updated row; `status` is not copied).  The target `PostData` keeps
`post_type` and `source` as plain strings the way the ingestion handlers
store them; a null column value is carried as `""` here, which no claim
inspects. -/
def rowToPostData (r : TwitterPostRow) : PostData :=
  { user_id := r.user_id, content := r.content,
    post_type := r.post_type.getD "", media_url := r.media_url,
    twitter_unique_id := r.twitter_unique_id,
    twitter_username := r.twitter_username, source := r.source.getD "",
    location := r.location, link_preview := r.link_preview }

/-- SQL `eq('twitter_unique_id', tuid)` row filter: a null column matches
nothing. -/
def rowMatches (tuid : String) (r : TwitterPostRow) : Bool :=
  r.twitter_unique_id == some tuid

/-- Request body of `/admin/accept-twitter-post`. -/
structure AcceptBody where
  twitter_unique_id : Option String := none
deriving DecidableEq

/-- Embedding of `accept_twitter_post`.  Returns the response (with effect
trace) and the queue table after the call.  The `update ... eq ... execute`
call sets `status` to accepted on every matching row and returns the updated
rows (`update_response.data`); an empty result is the 404 path; otherwise the
first returned row is copied and inserted into `posts`, whose outcome is the
`insertRes` oracle; an insert error is caught by the handler's bare `except`
(500, no cleanup here). -/
def accept_twitter_post (body : Option AcceptBody) (pending : List TwitterPostRow)
    (insertRes : Except String Unit) : HandlerResult × List TwitterPostRow :=
  match body with
  | none =>
    ({ status := 400, success := false, error := some "twitter_unique_id is required",
       trace := [] }, pending)
  | some d =>
    if !pyTruthyStr d.twitter_unique_id then
      ({ status := 400, success := false, error := some "twitter_unique_id is required",
         trace := [] }, pending)
    else
      let tuid := d.twitter_unique_id.getD ""
      let pending2 := pending.map (fun r =>
        if rowMatches tuid r then { r with status := "accepted" } else r)
      let updated := (pending.filter (rowMatches tuid)).map
        (fun r => { r with status := "accepted" })
      let tr := [Effect.updateStatus "twitter_posts" tuid "accepted"]
      match updated with
      | [] =>
        ({ status := 404, success := false, error := some "Twitter post not found",
           trace := tr }, pending2)
      | post :: _ =>
        let post_data := rowToPostData post
        let tr2 := tr ++ [Effect.insert "posts" post_data]
        match insertRes with
        | Except.ok _ =>
          ({ status := 200, success := true, error := none, trace := tr2 }, pending2)
        | Except.error e =>
          ({ status := 500, success := false, error := some e, trace := tr2 }, pending2)

/-! Upload URL Issuer key derivations (src/api/index.py lines 191-194 and
236-237). -/

/-- Python `file_name.split('.')[-1]`: the last split segment is exactly the
suffix after the last dot, or the whole name when no dot occurs. -/
def fileExt (file_name : String) : String :=
  ⟨(file_name.data.reverse.takeWhile (fun c => c != '.')).reverse⟩

/-- Storage key of `get_avatar_upload_url` (line 237):
`f"avatars/{user_id}/avatar.{file_ext}"`.  `content_type` is read from the
request but does not enter the key. -/
def get_avatar_upload_url_key (user_id file_name content_type : String) : String :=
  "avatars/" ++ user_id ++ "/avatar." ++ fileExt file_name

/-- Decimal rendering of the epoch-millisecond timestamp: embeds the Python
f-string conversion of the non-negative int `int(time.time() * 1000)`. -/
def decDigits (n : Nat) : List Char :=
  if h : n < 10 then [Nat.digitChar n]
  else decDigits (n / 10) ++ [Nat.digitChar (n % 10)]
decreasing_by exact Nat.div_lt_self (by omega) (by omega)

/-- String form of `decDigits`. -/
def natStr (n : Nat) : String := ⟨decDigits n⟩

/-- Storage key of `get_upload_url` (lines 191-194):
`f"{folder}/{user_id}/{timestamp}.{file_ext}"` with the folder chosen by
`file_type == 'image'`.  `content_type` does not enter the key. -/
def get_upload_url_key (user_id file_type file_name content_type : String)
    (timestamp : Nat) : String :=
  let folder := if file_type == "image" then "post-images" else "post-videos"
  folder ++ "/" ++ user_id ++ "/" ++ natStr timestamp ++ "." ++ fileExt file_name

/-- Decimal decoding used to invert `decDigits`. -/
def decodeDigits (l : List Char) : Nat :=
  l.foldl (fun a c => 10 * a + (c.toNat - 48)) 0

/-! Theorems. -/
/-- C4: a `get_token` call while a cached token exists and the current time is
before the stored expiry returns the identical cached token without issuing a
login; a call with the cache invalid issues exactly one login, on success
stores the returned token and user id and sets the expiry to the call time
plus one hour, and with no session fails with the authentication error. -/
theorem c4_get_token_cache (st : AuthState) (now : Nat) (login : Option Session) :
    (∀ t e, st.token = some t → t ≠ "" → st.expires_at = some e → now < e →
      AuthManager.get_token st now login = (Except.ok t, st, 0)) ∧
    (AuthManager.cacheValid st now = false →
      (AuthManager.get_token st now login).2.2 = 1 ∧
      (∀ s, login = some s →
        AuthManager.get_token st now login =
          (Except.ok s.access_token,
           { token := some s.access_token,
             user_id := some s.user_id,
             expires_at := some (now + 3600) }, 1)) ∧
      (login = none →
        (AuthManager.get_token st now login).1 = Except.error "Bot login failed")) := by
  constructor
  · intro t e htok ht hexp hlt
    have hv : AuthManager.cacheValid st now = true := by
      simp [AuthManager.cacheValid, htok, hexp, pyTruthyStr, ht, hlt]
    simp [AuthManager.get_token, hv, htok]
  · intro hv
    refine ⟨?_, ?_, ?_⟩
    · cases login <;> simp [AuthManager.get_token, hv]
    · intro s hs
      subst hs
      simp [AuthManager.get_token, hv]
    · intro hl
      subst hl
      simp [AuthManager.get_token, hv]

/-- Witness for `c4_get_token_cache` at a concrete cached state. -/
theorem c4_witness :
    AuthManager.get_token
        { token := some "tok", user_id := some "uid", expires_at := some 100 }
        5 none =
      (Except.ok "tok",
       { token := some "tok", user_id := some "uid", expires_at := some 100 }, 0) :=
  (c4_get_token_cache
      { token := some "tok", user_id := some "uid", expires_at := some 100 }
      5 none).1 "tok" 100 rfl (by decide) rfl (by decide)

/-- C10: when the cache is invalid and the login returns no session,
`get_token` raises the authentication error and leaves the stored state
exactly as it was, so a later call retries the login. -/
theorem c10_login_failure_state_unchanged (st : AuthState) (now : Nat)
    (h : AuthManager.cacheValid st now = false) :
    AuthManager.get_token st now none = (Except.error "Bot login failed", st, 1) ∧
    (∀ login2, (AuthManager.get_token st now login2).2.2 = 1) := by
  constructor
  · simp [AuthManager.get_token, h]
  · intro login2
    cases login2 <;> simp [AuthManager.get_token, h]

/-- Witness for `c10_login_failure_state_unchanged` at the empty initial state. -/
theorem c10_witness :
    AuthManager.get_token { } 0 none = (Except.error "Bot login failed", { }, 1) :=
  (c10_login_failure_state_unchanged { } 0 (by decide)).1

theorem cleanupLoop_eq_map (bucket : String) (deleteObj : String → Except String Unit) :
    ∀ urls : List String,
      cleanupLoop bucket deleteObj urls = urls.map (processUrl bucket deleteObj)
  | [] => rfl
  | _ :: rest => by
    simp [cleanupLoop, cleanupLoop_eq_map bucket deleteObj rest]

/-- C5: Media Cleanup never raises to its caller and is element-wise
independent: the outcome it records for each URL is `processUrl` of that URL
alone, for every oracle, so one deletion's failure cannot abort the rest; a
URL without the bucket marker is skipped as malformed, and a failing deletion
is recorded (logged) rather than propagated. -/
theorem c5_media_cleanup_best_effort (bucket : String)
    (deleteObj : String → Except String Unit) (media_urls : List String) :
    delete_media_from_storage bucket deleteObj media_urls =
      media_urls.map (processUrl bucket deleteObj) ∧
    (∀ url, strContains url (bucketPfx bucket) = false →
      processUrl bucket deleteObj url = MediaAction.invalidUrl url) ∧
    (∀ url e, strContains url (bucketPfx bucket) = true →
      deleteObj (splitSecond url (bucketPfx bucket)) = Except.error e →
      processUrl bucket deleteObj url =
        MediaAction.failedUrl url e) := by
  refine ⟨?_, ?_, ?_⟩
  · rcases media_urls with _ | ⟨u, rest⟩
    · rfl
    · simp [delete_media_from_storage, cleanupLoop_eq_map]
  · intro url h
    simp [processUrl, h]
  · intro url e h hd
    simp [processUrl, h, hd]

/-- Witness for `c5_media_cleanup_best_effort`: a bucket `b`, one malformed
URL, and an always-failing delete oracle. -/
theorem c5_witness :
    (strContains "nope" (bucketPfx "b") = false ∧
      processUrl "b" (fun _ => Except.error "boom") "nope" =
        MediaAction.invalidUrl "nope") ∧
    strContains "https://b.s3.amazonaws.com/k1" (bucketPfx "b") = true ∧
    processUrl "b" (fun _ => Except.error "boom") "https://b.s3.amazonaws.com/k1" =
      MediaAction.failedUrl "https://b.s3.amazonaws.com/k1" "boom" :=
  ⟨⟨by decide,
    (c5_media_cleanup_best_effort "b" (fun _ => Except.error "boom") []).2.1
      "nope" (by decide)⟩,
   by decide,
   (c5_media_cleanup_best_effort "b" (fun _ => Except.error "boom") []).2.2
     "https://b.s3.amazonaws.com/k1" "boom" (by decide) rfl⟩

/-! Helper lemmas about the auth preamble and traces. -/

theorem authOk_preamble (st : AuthState) (now : Nat) (login : Option Session)
    (h : authOk st now login = true) :
    ∃ t1 st1 n1 t2 st2 n2,
      AuthManager.get_token st now login = (Except.ok t1, st1, n1) ∧
      AuthManager.get_token st1 now login = (Except.ok t2, st2, n2) := by
  by_cases hv : AuthManager.cacheValid st now
  · exact ⟨st.token.getD "", st, 0, st.token.getD "", st, 0,
      by simp [AuthManager.get_token, hv], by simp [AuthManager.get_token, hv]⟩
  · have hl : ∃ s, login = some s := by
      cases login with
      | none => simp [authOk, hv] at h
      | some s => exact ⟨s, rfl⟩
    obtain ⟨s, rfl⟩ := hl
    have h1 : AuthManager.get_token st now (some s) =
        (Except.ok s.access_token,
         { token := some s.access_token, user_id := some s.user_id,
           expires_at := some (now + 3600) }, 1) := by
      simp [AuthManager.get_token, hv]
    by_cases hv2 : AuthManager.cacheValid
        { token := some s.access_token, user_id := some s.user_id,
          expires_at := some (now + 3600) } now
    · exact ⟨s.access_token,
        { token := some s.access_token, user_id := some s.user_id,
          expires_at := some (now + 3600) }, 1, s.access_token,
        { token := some s.access_token, user_id := some s.user_id,
          expires_at := some (now + 3600) }, 0, h1,
        by simp [AuthManager.get_token, hv2]⟩
    · exact ⟨s.access_token,
        { token := some s.access_token, user_id := some s.user_id,
          expires_at := some (now + 3600) }, 1, s.access_token,
        { token := some s.access_token, user_id := some s.user_id,
          expires_at := some (now + 3600) }, 1, h1,
        by simp [AuthManager.get_token, hv2]⟩

theorem eq_login_of_mem_loginTr {a : Effect} {n : Nat} (h : a ∈ loginTr n) :
    a = Effect.login := by
  unfold loginTr at h
  split at h <;> simp_all

theorem eq_login_of_mem_loginTr2 {a : Effect} {n1 n2 : Nat}
    (h : a ∈ loginTr n1 ++ loginTr n2) : a = Effect.login := by
  rcases List.mem_append.mp h with h | h <;> exact eq_login_of_mem_loginTr h

/-- Validation outcome of src/api/index.py `create_post_by_bot`, given a
successful token preamble: 400 with the check's message, and a trace made of
login effects only. -/
theorem apiIndex_direct_validation (st : AuthState) (now : Nat)
    (login : Option Session) (body : Option PostBody) (msg : String)
    (insertRes : Except String Unit)
    (hval : validationError body = some msg)
    (hauth : authOk st now login = true) :
    (ApiIndex.create_post_by_bot st now login body insertRes).status = 400 ∧
    (ApiIndex.create_post_by_bot st now login body insertRes).error = some msg ∧
    ∀ a ∈ (ApiIndex.create_post_by_bot st now login body insertRes).trace,
      a = Effect.login := by
  obtain ⟨t1, st1, n1, t2, st2, n2, h1, h2⟩ := authOk_preamble st now login hauth
  cases body with
  | none =>
    have hmsg : "No data provided" = msg := Option.some.inj hval
    subst hmsg
    refine ⟨?_, ?_, ?_⟩ <;>
      simp only [ApiIndex.create_post_by_bot, h1, h2] <;>
      first
        | rfl
        | (intro a ha; exact eq_login_of_mem_loginTr2 ha)
  | some d =>
    by_cases hc : pyTruthyStr d.content
    · by_cases ht : pyTruthyStr d.twitter_unique_id
      · simp [validationError, hc, ht] at hval
      · have hmsg : "twitter_unique_id is required" = msg := by
          simpa [validationError, hc, ht] using hval
        subst hmsg
        refine ⟨?_, ?_, ?_⟩ <;>
          simp only [ApiIndex.create_post_by_bot, h1, h2, hc, ht, Bool.not_true,
            Bool.not_false, if_true, if_false] <;>
          first
            | rfl
            | (intro a ha; exact eq_login_of_mem_loginTr2 ha)
    · have hmsg : "content is required" = msg := by
        simpa [validationError, hc] using hval
      subst hmsg
      refine ⟨?_, ?_, ?_⟩ <;>
        simp only [ApiIndex.create_post_by_bot, h1, h2, hc, Bool.not_false, if_true] <;>
        first
          | rfl
          | (intro a ha; exact eq_login_of_mem_loginTr2 ha)

/-- Validation outcome of src/endpoints.py `create_post_by_bot`, given a
successful token preamble. -/
theorem endpoints_direct_validation (st : AuthState) (now : Nat)
    (login : Option Session) (body : Option PostBody) (msg : String)
    (insertRes : Except String Unit)
    (hval : validationError body = some msg)
    (hauth : authOk st now login = true) :
    (Endpoints.create_post_by_bot st now login body insertRes).status = 400 ∧
    (Endpoints.create_post_by_bot st now login body insertRes).error = some msg ∧
    ∀ a ∈ (Endpoints.create_post_by_bot st now login body insertRes).trace,
      a = Effect.login := by
  obtain ⟨t1, st1, n1, t2, st2, n2, h1, h2⟩ := authOk_preamble st now login hauth
  cases body with
  | none =>
    have hmsg : "No data provided" = msg := Option.some.inj hval
    subst hmsg
    refine ⟨?_, ?_, ?_⟩ <;>
      simp only [Endpoints.create_post_by_bot, h1, h2] <;>
      first
        | rfl
        | (intro a ha; exact eq_login_of_mem_loginTr2 ha)
  | some d =>
    by_cases hc : pyTruthyStr d.content
    · by_cases ht : pyTruthyStr d.twitter_unique_id
      · simp [validationError, hc, ht] at hval
      · have hmsg : "twitter_unique_id is required" = msg := by
          simpa [validationError, hc, ht] using hval
        subst hmsg
        refine ⟨?_, ?_, ?_⟩ <;>
          simp only [Endpoints.create_post_by_bot, h1, h2, hc, ht, Bool.not_true,
            Bool.not_false, if_true, if_false] <;>
          first
            | rfl
            | (intro a ha; exact eq_login_of_mem_loginTr2 ha)
    · have hmsg : "content is required" = msg := by
        simpa [validationError, hc] using hval
      subst hmsg
      refine ⟨?_, ?_, ?_⟩ <;>
        simp only [Endpoints.create_post_by_bot, h1, h2, hc, Bool.not_false, if_true] <;>
        first
          | rfl
          | (intro a ha; exact eq_login_of_mem_loginTr2 ha)

/-- Validation outcome of src/endpoints.py `create_post_by_bot_for_approval`,
given a successful token preamble. -/
theorem endpoints_pending_validation (st : AuthState) (now : Nat)
    (login : Option Session) (body : Option PostBody) (msg : String)
    (insertRes : Except String Unit)
    (hval : validationError body = some msg)
    (hauth : authOk st now login = true) :
    (Endpoints.create_post_by_bot_for_approval st now login body insertRes).status = 400 ∧
    (Endpoints.create_post_by_bot_for_approval st now login body insertRes).error = some msg ∧
    ∀ a ∈ (Endpoints.create_post_by_bot_for_approval st now login body insertRes).trace,
      a = Effect.login := by
  obtain ⟨t1, st1, n1, t2, st2, n2, h1, h2⟩ := authOk_preamble st now login hauth
  cases body with
  | none =>
    have hmsg : "No data provided" = msg := Option.some.inj hval
    subst hmsg
    refine ⟨?_, ?_, ?_⟩ <;>
      simp only [Endpoints.create_post_by_bot_for_approval, h1, h2] <;>
      first
        | rfl
        | (intro a ha; exact eq_login_of_mem_loginTr2 ha)
  | some d =>
    by_cases hc : pyTruthyStr d.content
    · by_cases ht : pyTruthyStr d.twitter_unique_id
      · simp [validationError, hc, ht] at hval
      · have hmsg : "twitter_unique_id is required" = msg := by
          simpa [validationError, hc, ht] using hval
        subst hmsg
        refine ⟨?_, ?_, ?_⟩ <;>
          simp only [Endpoints.create_post_by_bot_for_approval, h1, h2, hc, ht,
            Bool.not_true, Bool.not_false, if_true, if_false] <;>
          first
            | rfl
            | (intro a ha; exact eq_login_of_mem_loginTr2 ha)
    · have hmsg : "content is required" = msg := by
        simpa [validationError, hc] using hval
      subst hmsg
      refine ⟨?_, ?_, ?_⟩ <;>
        simp only [Endpoints.create_post_by_bot_for_approval, h1, h2, hc,
          Bool.not_false, if_true] <;>
        first
          | rfl
          | (intro a ha; exact eq_login_of_mem_loginTr2 ha)

/-- Validation outcome of src/api/index.py `create_post_by_bot_for_approval`:
400 with the check's message and an empty effect trace. -/
theorem apiIndex_pending_validation (body : Option PostBody) (msg : String)
    (mappingRes : Except String (List String)) (insertRes : Except String Unit)
    (hval : validationError body = some msg) :
    ApiIndex.create_post_by_bot_for_approval body mappingRes insertRes =
      { status := 400, success := false, error := some msg, trace := [] } := by
  cases body with
  | none =>
    have hmsg : "No data provided" = msg := Option.some.inj hval
    subst hmsg
    rfl
  | some d =>
    by_cases hc : pyTruthyStr d.content
    · by_cases ht : pyTruthyStr d.twitter_unique_id
      · simp [validationError, hc, ht] at hval
      · have hmsg : "twitter_unique_id is required" = msg := by
          simpa [validationError, hc, ht] using hval
        subst hmsg
        simp [ApiIndex.create_post_by_bot_for_approval, hc, ht]
    · have hmsg : "content is required" = msg := by
        simpa [validationError, hc] using hval
      subst hmsg
      simp [ApiIndex.create_post_by_bot_for_approval, hc]

/-- When the token preamble fails (invalid cache, no session), the direct
handler of src/api/index.py answers 500 from the auth error; no insert is
ever issued, and cleanup runs exactly when the request carried a non-empty
`media_url` list. -/
theorem apiIndex_direct_auth_failure (st : AuthState) (now : Nat)
    (login : Option Session) (body : Option PostBody) (insertRes : Except String Unit)
    (hauth : authOk st now login = false) :
    (ApiIndex.create_post_by_bot st now login body insertRes).status = 500 ∧
    (ApiIndex.create_post_by_bot st now login body insertRes).error =
      some "Bot login failed" ∧
    ∀ t row, Effect.insert t row ∉
      (ApiIndex.create_post_by_bot st now login body insertRes).trace := by
  have hv : AuthManager.cacheValid st now = false := by
    cases hcv : AuthManager.cacheValid st now <;> simp [authOk, hcv] at hauth ⊢
  have hl : login = none := by
    cases login with
    | none => rfl
    | some s => simp [authOk, hv] at hauth
  subst hl
  have h1 : AuthManager.get_token st now none =
      (Except.error "Bot login failed", st, 1) := by
    simp [AuthManager.get_token, hv]
  refine ⟨?_, ?_, ?_⟩
  · simp only [ApiIndex.create_post_by_bot, h1, ingestFailPath]
  · simp only [ApiIndex.create_post_by_bot, h1, ingestFailPath]
  · intro t row hmem
    simp only [ApiIndex.create_post_by_bot, h1, ingestFailPath] at hmem
    split at hmem <;> simp_all [loginTr]

/-- Shape of the `except`-block result: 500 carrying the error, with cleanup
appended exactly when the request body held a non-empty `media_url` list. -/
theorem ingestFailPath_spec (d : PostBody) (e : String) (tr : List Effect)
    (htr : ∀ l, Effect.cleanup l ∉ tr) :
    (ingestFailPath (some d) e tr).status = 500 ∧
    (ingestFailPath (some d) e tr).error = some e ∧
    (d.media_url.getD [] ≠ [] →
      (ingestFailPath (some d) e tr).trace.getLast? =
        some (Effect.cleanup (d.media_url.getD []))) ∧
    (d.media_url.getD [] = [] →
      ∀ l, Effect.cleanup l ∉ (ingestFailPath (some d) e tr).trace) := by
  refine ⟨rfl, rfl, ?_, ?_⟩
  · intro hne
    have h' : (d.media_url.getD []).isEmpty = false := by
      cases h' : (d.media_url.getD []).isEmpty
      · rfl
      · exact absurd (List.isEmpty_iff.mp h') hne
    simp [ingestFailPath, h']
  · intro hm l
    have h' : (d.media_url.getD []).isEmpty = true := by
      simp [List.isEmpty_iff, hm]
    simp only [ingestFailPath, Option.bind_some] at *
    simp [h']
    exact htr l

/-- C1: for every direct Post Ingestion request (both route files) that
passes validation and whose insert fails, the handler answers 500 carrying
the error; Media Cleanup over exactly the request's `media_url` list is the
last effect before that response when the list is non-empty, and no cleanup
is invoked on this failure path when the list is absent, null, or empty. -/
theorem c1_insert_failure_runs_cleanup (st : AuthState) (now : Nat)
    (login : Option Session) (d : PostBody) (e : String)
    (hc : pyTruthyStr d.content = true)
    (ht : pyTruthyStr d.twitter_unique_id = true)
    (hauth : authOk st now login = true) :
    ((ApiIndex.create_post_by_bot st now login (some d) (Except.error e)).status = 500 ∧
     (ApiIndex.create_post_by_bot st now login (some d) (Except.error e)).error = some e ∧
     (d.media_url.getD [] ≠ [] →
       (ApiIndex.create_post_by_bot st now login (some d) (Except.error e)).trace.getLast? =
         some (Effect.cleanup (d.media_url.getD []))) ∧
     (d.media_url.getD [] = [] →
       ∀ l, Effect.cleanup l ∉
         (ApiIndex.create_post_by_bot st now login (some d) (Except.error e)).trace)) ∧
    ((Endpoints.create_post_by_bot st now login (some d) (Except.error e)).status = 500 ∧
     (Endpoints.create_post_by_bot st now login (some d) (Except.error e)).error = some e ∧
     (d.media_url.getD [] ≠ [] →
       (Endpoints.create_post_by_bot st now login (some d) (Except.error e)).trace.getLast? =
         some (Effect.cleanup (d.media_url.getD []))) ∧
     (d.media_url.getD [] = [] →
       ∀ l, Effect.cleanup l ∉
         (Endpoints.create_post_by_bot st now login (some d) (Except.error e)).trace)) := by
  obtain ⟨t1, st1, n1, t2, st2, n2, h1, h2⟩ := authOk_preamble st now login hauth
  constructor
  · have hstep : ∃ tr, ApiIndex.create_post_by_bot st now login (some d) (Except.error e) =
        ingestFailPath (some d) e tr ∧ ∀ l, Effect.cleanup l ∉ tr := by
      simp only [ApiIndex.create_post_by_bot, h1, h2, hc, ht, Bool.not_true, Bool.false_eq_true,
        if_false]
      refine ⟨_, rfl, ?_⟩
      intro l hmem
      rcases List.mem_append.mp hmem with h' | h'
      · exact absurd (eq_login_of_mem_loginTr2 h') (by simp)
      · simp at h'
    obtain ⟨tr, heq, htr⟩ := hstep
    rw [heq]
    exact ingestFailPath_spec d e tr htr
  · have hstep : ∃ tr, Endpoints.create_post_by_bot st now login (some d) (Except.error e) =
        ingestFailPath (some d) e tr ∧ ∀ l, Effect.cleanup l ∉ tr := by
      simp only [Endpoints.create_post_by_bot, h1, h2, hc, ht, Bool.not_true, Bool.false_eq_true,
        if_false]
      refine ⟨_, rfl, ?_⟩
      intro l hmem
      rcases List.mem_append.mp hmem with h' | h'
      · exact absurd (eq_login_of_mem_loginTr2 h') (by simp)
      · simp at h'
    obtain ⟨tr, heq, htr⟩ := hstep
    rw [heq]
    exact ingestFailPath_spec d e tr htr

/-- Witness for `c1_insert_failure_runs_cleanup` at a concrete failing insert
with one media URL. -/
theorem c1_witness :
    (ApiIndex.create_post_by_bot { } 0 (some { access_token := "t", user_id := "u" })
        (some { content := some "hi", twitter_unique_id := some "tw1",
                media_url := some ["https://b.s3.amazonaws.com/k"] })
        (Except.error "db down")).status = 500 ∧
    (ApiIndex.create_post_by_bot { } 0 (some { access_token := "t", user_id := "u" })
        (some { content := some "hi", twitter_unique_id := some "tw1",
                media_url := some ["https://b.s3.amazonaws.com/k"] })
        (Except.error "db down")).trace.getLast? =
      some (Effect.cleanup ["https://b.s3.amazonaws.com/k"]) := by
  have h := c1_insert_failure_runs_cleanup { } 0
    (some { access_token := "t", user_id := "u" })
    { content := some "hi", twitter_unique_id := some "tw1",
      media_url := some ["https://b.s3.amazonaws.com/k"] } "db down"
    (by decide) (by decide) (by decide)
  exact ⟨h.1.1, h.1.2.2.1 (by decide)⟩

/-- C2 counterexample: a request missing `content` (so the claim demands a
400 with no media deletion), sent to the direct handler while the credential
cache is empty and the provider login fails, is answered 500 from the auth
error and triggers media cleanup over its non-empty `media_url` list. -/
theorem c2_counterexample :
    ApiIndex.create_post_by_bot { } 0 none
        (some { content := none, media_url := some ["https://b.s3.amazonaws.com/k"] })
        (Except.ok ()) =
      { status := 500, success := false, error := some "Bot login failed",
        trace := [Effect.login, Effect.cleanup ["https://b.s3.amazonaws.com/k"]] } := by
  decide

/-- C2 (amended): a Post Ingestion request with a missing body or a missing
or empty `content` / `twitter_unique_id` is answered 400 with the message
naming the missing item, with no insert and no media deletion — provided the
token preamble (run before validation by the direct handlers and by
src/endpoints.py's pending handler) succeeds; src/api/index.py's pending
handler satisfies this unconditionally.  When the preamble fails, those
handlers answer 500 instead and still perform no insert. -/
theorem c2_validation_amended (st : AuthState) (now : Nat) (login : Option Session)
    (body : Option PostBody) (msg : String)
    (mappingRes : Except String (List String)) (insertRes : Except String Unit)
    (hval : validationError body = some msg) :
    (ApiIndex.create_post_by_bot_for_approval body mappingRes insertRes =
      { status := 400, success := false, error := some msg, trace := [] }) ∧
    (authOk st now login = true →
      ((ApiIndex.create_post_by_bot st now login body insertRes).status = 400 ∧
       (ApiIndex.create_post_by_bot st now login body insertRes).error = some msg ∧
       (∀ t row, Effect.insert t row ∉
         (ApiIndex.create_post_by_bot st now login body insertRes).trace) ∧
       (∀ l, Effect.cleanup l ∉
         (ApiIndex.create_post_by_bot st now login body insertRes).trace)) ∧
      ((Endpoints.create_post_by_bot st now login body insertRes).status = 400 ∧
       (Endpoints.create_post_by_bot st now login body insertRes).error = some msg ∧
       (∀ t row, Effect.insert t row ∉
         (Endpoints.create_post_by_bot st now login body insertRes).trace) ∧
       (∀ l, Effect.cleanup l ∉
         (Endpoints.create_post_by_bot st now login body insertRes).trace)) ∧
      ((Endpoints.create_post_by_bot_for_approval st now login body insertRes).status = 400 ∧
       (Endpoints.create_post_by_bot_for_approval st now login body insertRes).error = some msg ∧
       (∀ t row, Effect.insert t row ∉
         (Endpoints.create_post_by_bot_for_approval st now login body insertRes).trace) ∧
       (∀ l, Effect.cleanup l ∉
         (Endpoints.create_post_by_bot_for_approval st now login body insertRes).trace))) ∧
    (authOk st now login = false →
      (ApiIndex.create_post_by_bot st now login body insertRes).status = 500 ∧
      ∀ t row, Effect.insert t row ∉
        (ApiIndex.create_post_by_bot st now login body insertRes).trace) := by
  refine ⟨apiIndex_pending_validation body msg mappingRes insertRes hval, ?_, ?_⟩
  · intro hauth
    obtain ⟨s1, e1, l1⟩ := apiIndex_direct_validation st now login body msg insertRes hval hauth
    obtain ⟨s2, e2, l2⟩ := endpoints_direct_validation st now login body msg insertRes hval hauth
    obtain ⟨s3, e3, l3⟩ := endpoints_pending_validation st now login body msg insertRes hval hauth
    refine ⟨⟨s1, e1, ?_, ?_⟩, ⟨s2, e2, ?_, ?_⟩, ⟨s3, e3, ?_, ?_⟩⟩
    · intro t row hmem; have := l1 _ hmem; simp at this
    · intro l hmem; have := l1 _ hmem; simp at this
    · intro t row hmem; have := l2 _ hmem; simp at this
    · intro l hmem; have := l2 _ hmem; simp at this
    · intro t row hmem; have := l3 _ hmem; simp at this
    · intro l hmem; have := l3 _ hmem; simp at this
  · intro hauth
    obtain ⟨s1, e1, l1⟩ := apiIndex_direct_auth_failure st now login body insertRes hauth
    exact ⟨s1, l1⟩

/-- Witness for `c2_validation_amended` at a request missing `content`. -/
theorem c2_witness :
    ApiIndex.create_post_by_bot_for_approval (some { twitter_unique_id := some "tw1" })
        (Except.ok []) (Except.ok ()) =
      { status := 400, success := false, error := some "content is required",
        trace := [] } :=
  (c2_validation_amended { } 0 none (some { twitter_unique_id := some "tw1" })
    "content is required" (Except.ok []) (Except.ok ()) (by decide)).1

/-- C3 counterexample: a direct-handler request missing `content`, arriving
with an empty credential cache and a succeeding provider, is answered 400 —
but the trace already holds the identity-provider login issued before
validation, refuting "no identity-provider login before the HTTP 400". -/
theorem c3_counterexample :
    ApiIndex.create_post_by_bot { } 0 (some { access_token := "t", user_id := "u" })
        (some { content := none }) (Except.ok ()) =
      { status := 400, success := false, error := some "content is required",
        trace := [Effect.login] } := by
  decide

/-- C3 (amended): a validation failure short-circuits before any database
call and any storage call — src/api/index.py's pending handler issues no
effect at all before its 400, while the two direct handlers (both files) and
src/endpoints.py's pending handler, whose token preamble runs first, have a
trace before their 400 that can hold only the credential-cache login, never
an insert, a mapping lookup, or a cleanup. -/
theorem c3_validation_shortcircuit_amended (st : AuthState) (now : Nat)
    (login : Option Session) (body : Option PostBody) (msg : String)
    (mappingRes : Except String (List String)) (insertRes : Except String Unit)
    (hval : validationError body = some msg) :
    ((ApiIndex.create_post_by_bot_for_approval body mappingRes insertRes).trace = [] ∧
     (ApiIndex.create_post_by_bot_for_approval body mappingRes insertRes).status = 400) ∧
    (authOk st now login = true →
      ((ApiIndex.create_post_by_bot st now login body insertRes).status = 400 ∧
       ∀ a ∈ (ApiIndex.create_post_by_bot st now login body insertRes).trace,
         a = Effect.login) ∧
      ((Endpoints.create_post_by_bot st now login body insertRes).status = 400 ∧
       ∀ a ∈ (Endpoints.create_post_by_bot st now login body insertRes).trace,
         a = Effect.login) ∧
      ((Endpoints.create_post_by_bot_for_approval st now login body insertRes).status = 400 ∧
       ∀ a ∈ (Endpoints.create_post_by_bot_for_approval st now login body insertRes).trace,
         a = Effect.login)) := by
  constructor
  · rw [apiIndex_pending_validation body msg mappingRes insertRes hval]
    exact ⟨rfl, rfl⟩
  · intro hauth
    obtain ⟨s1, _, l1⟩ := apiIndex_direct_validation st now login body msg insertRes hval hauth
    obtain ⟨s2, _, l2⟩ := endpoints_direct_validation st now login body msg insertRes hval hauth
    obtain ⟨s3, _, l3⟩ := endpoints_pending_validation st now login body msg insertRes hval hauth
    exact ⟨⟨s1, l1⟩, ⟨s2, l2⟩, ⟨s3, l3⟩⟩

/-- Witness for `c3_validation_shortcircuit_amended` at a request missing
`twitter_unique_id`. -/
theorem c3_witness :
    (ApiIndex.create_post_by_bot_for_approval (some { content := some "hi" })
        (Except.ok []) (Except.ok ())).trace = [] ∧
    (ApiIndex.create_post_by_bot_for_approval (some { content := some "hi" })
        (Except.ok []) (Except.ok ())).status = 400 :=
  (c3_validation_shortcircuit_amended { } 0 none (some { content := some "hi" })
    "twitter_unique_id is required" (Except.ok []) (Except.ok ()) (by decide)).1
theorem mem_ingestFailPath_trace {a : Effect} {body : Option PostBody} {e : String}
    {tr : List Effect} (h : a ∈ (ingestFailPath body e tr).trace) :
    a ∈ tr ∨ ∃ l, a = Effect.cleanup l := by
  simp only [ingestFailPath] at h
  split at h
  · exact Or.inl h
  · rcases List.mem_append.mp h with h' | h'
    · exact Or.inl h'
    · exact Or.inr ⟨_, List.mem_singleton.mp h'⟩

theorem insertedUserIds_ingestFailPath (body : Option PostBody) (e : String)
    (tr : List Effect) :
    insertedUserIds (ingestFailPath body e tr).trace = insertedUserIds tr := by
  simp only [ingestFailPath]
  split
  · rfl
  · simp [insertedUserIds, List.filterMap_append]

/-- C6 counterexample: the src/endpoints.py pending handler, given a request
that supplies `twitter_username`, performs no mapping lookup at all — its
trace is exactly one insert — and the inserted row's `user_id` is the cached
bot identity, which is not the fixed default identity (and not any mapping
result): the claim fails on this pending/approval-queue variant. -/
theorem c6_counterexample :
    (Endpoints.create_post_by_bot_for_approval
        { token := some "tok", user_id := some "bot-uid", expires_at := some 100 } 0 none
        (some { content := some "hi", twitter_unique_id := some "t1",
                twitter_username := some "alice" })
        (Except.ok ())).trace =
      [Effect.insert "twitter_posts"
        { user_id := "bot-uid", content := some "hi", post_type := "text",
          media_url := none, twitter_unique_id := some "t1",
          twitter_username := some "alice", source := "twitter", location := none,
          link_preview := none }] ∧
    "bot-uid" ≠ DEFAULT_BOT_USER_ID := by
  decide

/-- C6 (amended): the src/api/index.py pending handler resolves the identity
exactly as claimed — with a `twitter_username` it looks the mapping table up
and uses the matched `user_id`, falling back to the fixed default on no match
or on a swallowed lookup error (still answering 201 when the insert
succeeds), and uses the default with no lookup when no username is supplied.
The src/endpoints.py pending handler, however, never consults the mapping
table: it always inserts under the cached bot identity. -/
theorem c6_username_resolution_amended (d : PostBody)
    (mappingRes : Except String (List String)) (insertRes : Except String Unit)
    (hc : pyTruthyStr d.content = true)
    (ht : pyTruthyStr d.twitter_unique_id = true) :
    (pyTruthyStr d.twitter_username = true →
      Effect.mapLookup (d.twitter_username.getD "") ∈
        (ApiIndex.create_post_by_bot_for_approval (some d) mappingRes insertRes).trace ∧
      (∀ u rest, mappingRes = Except.ok (u :: rest) →
        insertedUserIds
          (ApiIndex.create_post_by_bot_for_approval (some d) mappingRes insertRes).trace =
          [u]) ∧
      (mappingRes = Except.ok [] →
        insertedUserIds
          (ApiIndex.create_post_by_bot_for_approval (some d) mappingRes insertRes).trace =
          [DEFAULT_BOT_USER_ID]) ∧
      (∀ err, mappingRes = Except.error err →
        insertedUserIds
          (ApiIndex.create_post_by_bot_for_approval (some d) mappingRes insertRes).trace =
          [DEFAULT_BOT_USER_ID] ∧
        (insertRes = Except.ok () →
          (ApiIndex.create_post_by_bot_for_approval (some d) mappingRes insertRes).status =
            201 ∧
          (ApiIndex.create_post_by_bot_for_approval (some d) mappingRes insertRes).success =
            true))) ∧
    (pyTruthyStr d.twitter_username = false →
      insertedUserIds
        (ApiIndex.create_post_by_bot_for_approval (some d) mappingRes insertRes).trace =
        [DEFAULT_BOT_USER_ID] ∧
      ∀ u, Effect.mapLookup u ∉
        (ApiIndex.create_post_by_bot_for_approval (some d) mappingRes insertRes).trace) ∧
    (∀ st now login, authOk st now login = true → ∀ u,
      Effect.mapLookup u ∉
        (Endpoints.create_post_by_bot_for_approval st now login (some d) insertRes).trace) := by
  refine ⟨?_, ?_, ?_⟩
  · intro husr
    refine ⟨?_, ?_, ?_, ?_⟩
    · cases mappingRes with
      | ok rows =>
        cases rows with
        | nil =>
          cases insertRes with
          | ok v =>
            simp [ApiIndex.create_post_by_bot_for_approval, hc, ht, husr]
          | error e =>
            simp only [ApiIndex.create_post_by_bot_for_approval, hc, ht, husr,
              Bool.not_true, Bool.false_eq_true, if_false]
            rcases hsp : (d.media_url.getD []).isEmpty with _ | _ <;>
              simp [ingestFailPath, hsp]
        | cons u rest =>
          cases insertRes with
          | ok v =>
            simp [ApiIndex.create_post_by_bot_for_approval, hc, ht, husr]
          | error e =>
            simp only [ApiIndex.create_post_by_bot_for_approval, hc, ht, husr,
              Bool.not_true, Bool.false_eq_true, if_false]
            rcases hsp : (d.media_url.getD []).isEmpty with _ | _ <;>
              simp [ingestFailPath, hsp]
      | error err =>
        cases insertRes with
        | ok v =>
          simp [ApiIndex.create_post_by_bot_for_approval, hc, ht, husr]
        | error e =>
          simp only [ApiIndex.create_post_by_bot_for_approval, hc, ht, husr,
            Bool.not_true, Bool.false_eq_true, if_false]
          rcases hsp : (d.media_url.getD []).isEmpty with _ | _ <;>
            simp [ingestFailPath, hsp]
    · intro u rest hmr
      subst hmr
      cases insertRes with
      | ok v =>
        simp [ApiIndex.create_post_by_bot_for_approval, hc, ht, husr, insertedUserIds]
      | error e =>
        simp only [ApiIndex.create_post_by_bot_for_approval, hc, ht, husr,
          Bool.not_true, Bool.false_eq_true, if_false]
        rw [insertedUserIds_ingestFailPath]
        simp [insertedUserIds]
    · intro hmr
      subst hmr
      cases insertRes with
      | ok v =>
        simp [ApiIndex.create_post_by_bot_for_approval, hc, ht, husr, insertedUserIds]
      | error e =>
        simp only [ApiIndex.create_post_by_bot_for_approval, hc, ht, husr,
          Bool.not_true, Bool.false_eq_true, if_false]
        rw [insertedUserIds_ingestFailPath]
        simp [insertedUserIds]
    · intro err hmr
      subst hmr
      constructor
      · cases insertRes with
        | ok v =>
          simp [ApiIndex.create_post_by_bot_for_approval, hc, ht, husr, insertedUserIds]
        | error e =>
          simp only [ApiIndex.create_post_by_bot_for_approval, hc, ht, husr,
            Bool.not_true, Bool.false_eq_true, if_false]
          rw [insertedUserIds_ingestFailPath]
          simp [insertedUserIds]
      · intro hir
        subst hir
        constructor <;>
          simp [ApiIndex.create_post_by_bot_for_approval, hc, ht, husr]
  · intro husr
    constructor
    · cases insertRes with
      | ok v =>
        simp [ApiIndex.create_post_by_bot_for_approval, hc, ht, husr, insertedUserIds]
      | error e =>
        simp only [ApiIndex.create_post_by_bot_for_approval, hc, ht, husr,
          Bool.not_true, Bool.false_eq_true, if_false]
        rw [insertedUserIds_ingestFailPath]
        simp [insertedUserIds]
    · intro u hmem
      cases insertRes with
      | ok v =>
        simp [ApiIndex.create_post_by_bot_for_approval, hc, ht, husr] at hmem
      | error e =>
        simp only [ApiIndex.create_post_by_bot_for_approval, hc, ht, husr,
          Bool.not_true, Bool.false_eq_true, if_false] at hmem
        rcases mem_ingestFailPath_trace hmem with h' | ⟨l, h'⟩
        · simp at h'
        · simp at h'
  · intro st now login hauth u hmem
    obtain ⟨t1, st1, n1, t2, st2, n2, h1, h2⟩ := authOk_preamble st now login hauth
    cases insertRes with
    | ok v =>
      simp only [Endpoints.create_post_by_bot_for_approval, h1, h2, hc, ht,
        Bool.not_true, Bool.false_eq_true, if_false] at hmem
      rcases List.mem_append.mp hmem with h' | h'
      · exact absurd (eq_login_of_mem_loginTr2 h') (by simp)
      · simp at h'
    | error e =>
      simp only [Endpoints.create_post_by_bot_for_approval, h1, h2, hc, ht,
        Bool.not_true, Bool.false_eq_true, if_false] at hmem
      rcases mem_ingestFailPath_trace hmem with h' | ⟨l, h'⟩
      · rcases List.mem_append.mp h' with h2' | h2'
        · exact absurd (eq_login_of_mem_loginTr2 h2') (by simp)
        · simp at h2'
      · simp at h'

/-- Witness for `c6_username_resolution_amended`: a supplied username whose
lookup matches `u42`. -/
theorem c6_witness :
    Effect.mapLookup "alice" ∈
      (ApiIndex.create_post_by_bot_for_approval
          (some { content := some "hi", twitter_unique_id := some "t1",
                  twitter_username := some "alice" })
          (Except.ok ["u42"]) (Except.ok ())).trace ∧
    insertedUserIds
      (ApiIndex.create_post_by_bot_for_approval
          (some { content := some "hi", twitter_unique_id := some "t1",
                  twitter_username := some "alice" })
          (Except.ok ["u42"]) (Except.ok ())).trace = ["u42"] := by
  have h := c6_username_resolution_amended
    { content := some "hi", twitter_unique_id := some "t1",
      twitter_username := some "alice" }
    (Except.ok ["u42"]) (Except.ok ()) (by decide) (by decide)
  have h1 := h.1 (by decide)
  exact ⟨h1.1, h1.2.1 "u42" [] rfl⟩

/-- C7: an Approval Transfer for a `twitter_unique_id` matching no pending
row answers 404, leaves every pending row unchanged, and inserts nothing;
when a match exists the matched row's status is set to accepted (in the
returned table) and only then are its fields copied into the record inserted
into the live `posts` table — the trace is exactly the status update followed
by that insert. -/
theorem c7_accept_twitter_post_not_found (pending : List TwitterPostRow)
    (insertRes : Except String Unit) (tuid : String) (htuid : tuid ≠ "") :
    ((pending.filter (rowMatches tuid)) = [] →
      (accept_twitter_post (some { twitter_unique_id := some tuid }) pending insertRes).1.status =
        404 ∧
      (accept_twitter_post (some { twitter_unique_id := some tuid }) pending insertRes).2 =
        pending ∧
      ∀ t row, Effect.insert t row ∉
        (accept_twitter_post (some { twitter_unique_id := some tuid }) pending insertRes).1.trace) ∧
    (∀ r rest, pending.filter (rowMatches tuid) = r :: rest →
      (accept_twitter_post (some { twitter_unique_id := some tuid }) pending insertRes).2 =
        pending.map (fun r0 =>
          if rowMatches tuid r0 then { r0 with status := "accepted" } else r0) ∧
      (accept_twitter_post (some { twitter_unique_id := some tuid }) pending insertRes).1.trace =
        [Effect.updateStatus "twitter_posts" tuid "accepted",
         Effect.insert "posts" (rowToPostData { r with status := "accepted" })] ∧
      ({ r with status := "accepted" } : TwitterPostRow).status = "accepted") := by
  have hb : pyTruthyStr (some tuid) = true := by
    simp [pyTruthyStr, htuid]
  constructor
  · intro hnone
    have hmap : pending.map (fun r =>
        if rowMatches tuid r then { r with status := "accepted" } else r) = pending := by
      have hall : ∀ r ∈ pending, rowMatches tuid r = false := by
        intro r hr
        by_contra hne
        have : r ∈ pending.filter (rowMatches tuid) := by
          rw [List.mem_filter]
          exact ⟨hr, by revert hne; cases rowMatches tuid r <;> simp⟩
        rw [hnone] at this
        exact absurd this (List.not_mem_nil r)
      calc pending.map (fun r =>
              if rowMatches tuid r then { r with status := "accepted" } else r)
          = pending.map id := by
            apply List.map_congr_left
            intro r hr
            simp [hall r hr]
        _ = pending := List.map_id pending
    refine ⟨?_, ?_, ?_⟩
    · simp [accept_twitter_post, hb, hnone]
    · simp [accept_twitter_post, hb, hnone, hmap]
    · intro t row hmem
      simp [accept_twitter_post, hb, hnone] at hmem
  · intro r rest hcons
    refine ⟨?_, ?_, rfl⟩
    · cases insertRes <;> simp [accept_twitter_post, hb, hcons]
    · cases insertRes <;> simp [accept_twitter_post, hb, hcons]

/-- Witness for `c7_accept_twitter_post_not_found`: a one-row queue holding
`t9`, asked to accept the unknown id `t1` (no-match branch) and the known id
`t9` (match branch). -/
theorem c7_witness :
    ((accept_twitter_post (some { twitter_unique_id := some "t1" })
        [{ user_id := "u1", content := some "c", post_type := some "text",
           media_url := none, twitter_unique_id := some "t9",
           twitter_username := none, source := some "twitter", location := none,
           link_preview := none, status := "pending" }] (Except.ok ())).1.status = 404 ∧
     (accept_twitter_post (some { twitter_unique_id := some "t1" })
        [{ user_id := "u1", content := some "c", post_type := some "text",
           media_url := none, twitter_unique_id := some "t9",
           twitter_username := none, source := some "twitter", location := none,
           link_preview := none, status := "pending" }] (Except.ok ())).2 =
       [{ user_id := "u1", content := some "c", post_type := some "text",
          media_url := none, twitter_unique_id := some "t9",
          twitter_username := none, source := some "twitter", location := none,
          link_preview := none, status := "pending" }]) ∧
    (accept_twitter_post (some { twitter_unique_id := some "t9" })
        [{ user_id := "u1", content := some "c", post_type := some "text",
           media_url := none, twitter_unique_id := some "t9",
           twitter_username := none, source := some "twitter", location := none,
           link_preview := none, status := "pending" }] (Except.ok ())).1.trace =
      [Effect.updateStatus "twitter_posts" "t9" "accepted",
       Effect.insert "posts"
         (rowToPostData
           { user_id := "u1", content := some "c", post_type := some "text",
             media_url := none, twitter_unique_id := some "t9",
             twitter_username := none, source := some "twitter", location := none,
             link_preview := none, status := "accepted" })] := by
  have h1 := c7_accept_twitter_post_not_found
    [{ user_id := "u1", content := some "c", post_type := some "text",
       media_url := none, twitter_unique_id := some "t9",
       twitter_username := none, source := some "twitter", location := none,
       link_preview := none, status := "pending" }] (Except.ok ()) "t1" (by decide)
  have h2 := c7_accept_twitter_post_not_found
    [{ user_id := "u1", content := some "c", post_type := some "text",
       media_url := none, twitter_unique_id := some "t9",
       twitter_username := none, source := some "twitter", location := none,
       link_preview := none, status := "pending" }] (Except.ok ()) "t9" (by decide)
  have h1' := h1.1 (by decide)
  have h2' := h2.2
    { user_id := "u1", content := some "c", post_type := some "text",
      media_url := none, twitter_unique_id := some "t9",
      twitter_username := none, source := some "twitter", location := none,
      link_preview := none, status := "pending" } [] (by decide)
  exact ⟨⟨h1'.1, h1'.2.1⟩, h2'.2.1⟩

theorem digitChar_toNat {m : Nat} (h : m < 10) : (Nat.digitChar m).toNat = 48 + m := by
  interval_cases m <;> rfl

theorem digitChar_ne_dot {m : Nat} (h : m < 10) : Nat.digitChar m ≠ '.' := by
  interval_cases m <;> decide

theorem decode_decDigits (n : Nat) : decodeDigits (decDigits n) = n := by
  induction n using Nat.strong_induction_on with
  | _ n ih =>
    rw [decDigits]
    split
    case isTrue h =>
      simp [decodeDigits, digitChar_toNat h]
    case isFalse h =>
      have h10 : n / 10 < n := Nat.div_lt_self (by omega) (by omega)
      have hm : n % 10 < 10 := Nat.mod_lt _ (by omega)
      have hdec := ih (n / 10) h10
      simp only [decodeDigits, List.foldl_append, List.foldl_cons, List.foldl_nil] at hdec ⊢
      rw [hdec, digitChar_toNat hm]
      omega

theorem decDigits_inj {a b : Nat} (h : decDigits a = decDigits b) : a = b := by
  have h2 := congrArg decodeDigits h
  rwa [decode_decDigits, decode_decDigits] at h2

theorem dot_not_mem_decDigits (n : Nat) : '.' ∉ decDigits n := by
  induction n using Nat.strong_induction_on with
  | _ n ih =>
    rw [decDigits]
    split
    case isTrue h =>
      simp [(digitChar_ne_dot h).symm]
    case isFalse h =>
      have h10 : n / 10 < n := Nat.div_lt_self (by omega) (by omega)
      have hm : n % 10 < 10 := Nat.mod_lt _ (by omega)
      intro hmem
      rcases List.mem_append.mp hmem with h' | h'
      · exact ih (n / 10) h10 h'
      · exact digitChar_ne_dot hm (List.mem_singleton.mp h').symm

theorem append_dot_inj (a : List Char) : ∀ (b x y : List Char), '.' ∉ a → '.' ∉ b →
    a ++ '.' :: x = b ++ '.' :: y → a = b ∧ x = y := by
  induction a with
  | nil =>
    intro b x y _ hb heq
    cases b with
    | nil => simpa using heq
    | cons c b' =>
      obtain ⟨h1, _⟩ := List.cons.inj heq
      exact absurd (h1 ▸ List.mem_cons_self c b') hb
  | cons c a' ih =>
    intro b x y ha hb heq
    cases b with
    | nil =>
      obtain ⟨h1, _⟩ := List.cons.inj heq
      exact absurd (h1 ▸ List.mem_cons_self c a') ha
    | cons e b' =>
      obtain ⟨h1, h2⟩ := List.cons.inj heq
      obtain ⟨h3, h4⟩ := ih b' x y (fun hm => ha (List.mem_cons_of_mem _ hm))
        (fun hm => hb (List.mem_cons_of_mem _ hm)) h2
      exact ⟨by rw [h1, h3], h4⟩

theorem data_append (s t : String) : (s ++ t).data = s.data ++ t.data := rfl

theorem key_data (u ft f ct : String) (t : Nat) :
    (get_upload_url_key u ft f ct t).data =
      ((if ft == "image" then "post-images" else "post-videos") ++ "/" ++ u ++ "/").data
        ++ (decDigits t ++ '.' :: (fileExt f).data) := by
  simp [get_upload_url_key, natStr, data_append, List.append_assoc]

/-- C8: the avatar storage key is a pure function of `user_id` and the
computed file extension only — two requests with the same user and extension
but any file-name bases and content types get the identical key, namely
`avatars/{user_id}/avatar.{ext}`. -/
theorem c8_avatar_key_pure (u f1 f2 ct1 ct2 : String)
    (hext : fileExt f1 = fileExt f2) :
    get_avatar_upload_url_key u f1 ct1 = get_avatar_upload_url_key u f2 ct2 ∧
    get_avatar_upload_url_key u f1 ct1 = "avatars/" ++ u ++ "/avatar." ++ fileExt f1 := by
  constructor
  · simp [get_avatar_upload_url_key, hext]
  · rfl

/-- Witness for `c8_avatar_key_pure`: same user and extension, different
file-name base and content type. -/
theorem c8_witness :
    get_avatar_upload_url_key "u1" "a.png" "image/png" =
      get_avatar_upload_url_key "u1" "b.png" "image/jpeg" :=
  (c8_avatar_key_pure "u1" "a.png" "b.png" "image/png" "image/jpeg" rfl).1

/-- C9: for two general upload keys computed for the same user and file type,
distinct timestamps (calls at least one millisecond apart) give distinct
keys, whatever the file names and content types; with equal timestamps and
equal extensions the keys coincide (same-millisecond calls may collide). -/
theorem c9_upload_key_timestamp_inj (u ft f1 f2 ct1 ct2 : String) (t1 t2 : Nat) :
    (t1 ≠ t2 →
      get_upload_url_key u ft f1 ct1 t1 ≠ get_upload_url_key u ft f2 ct2 t2) ∧
    (t1 = t2 → fileExt f1 = fileExt f2 →
      get_upload_url_key u ft f1 ct1 t1 = get_upload_url_key u ft f2 ct2 t2) := by
  constructor
  · intro hne heq
    have hd := congrArg String.data heq
    rw [key_data, key_data] at hd
    have hsuf := List.append_cancel_left hd
    obtain ⟨hdd, _⟩ := append_dot_inj (decDigits t1) (decDigits t2)
      (fileExt f1).data (fileExt f2).data
      (dot_not_mem_decDigits t1) (dot_not_mem_decDigits t2) hsuf
    exact hne (decDigits_inj hdd)
  · intro ht hext
    subst ht
    simp [get_upload_url_key, hext]

/-- Witness for `c9_upload_key_timestamp_inj`: timestamps 0 and 1 give
distinct keys even with different extensions; equal timestamps with equal
extensions collide. -/
theorem c9_witness :
    (0 ≠ 1 ∧
      get_upload_url_key "u1" "image" "a.jpg" "image/jpeg" 0 ≠
        get_upload_url_key "u1" "image" "b.png" "image/jpeg" 1) ∧
    get_upload_url_key "u1" "image" "a.jpg" "image/jpeg" 5 =
      get_upload_url_key "u1" "image" "c.jpg" "image/png" 5 := by
  have h1 := c9_upload_key_timestamp_inj "u1" "image" "a.jpg" "b.png"
    "image/jpeg" "image/jpeg" 0 1
  have h2 := c9_upload_key_timestamp_inj "u1" "image" "a.jpg" "c.jpg"
    "image/jpeg" "image/png" 5 5
  exact ⟨⟨by decide, h1.1 (by decide)⟩, h2.2 rfl rfl⟩
